import Mathlib

/-!
Verification development for the CloudGuard Sentinel model-serving service
(`src/app/main.py`).  The Python serving layer is shallowly embedded below:

* `ModelState` mirrors the global dict
  `model_state = {"model": None, "version": "N/A", "feature_list": None}`;
  the `"N/A"` sentinel is modelled as `none`, a registry version string
  (MLflow registry versions are decimal strings of integers) as `some n`.
* `Counters` mirrors the Prometheus counters/gauge touched by the code
  (`cloudguard_predictions_total`, `cloudguard_model_updates_total`,
  `cloudguard_last_failure_risk`).
* `load_feature_list` embeds the schema loader (main.py lines 69-102); the
  external world it probes is abstracted by `SchemaArtifact`.
* `load_latest_model` embeds one refresh cycle (main.py lines 105-142); the
  MLflow registry reply and the artifact fetch outcome are abstracted by
  `RegistryReply` and `FetchReply`.  The function additionally returns the
  number of artifact fetch attempts (calls to `mlflow.sklearn.load_model`)
  the cycle performed, for the idempotence claims.
* `predictRecord` embeds the `/predict` handler body (main.py lines 192-251)
  acting on the dict produced by `tel.model_dump()`; `predictTelemetry`
  composes it with `telemetryDump`, the embedding of pydantic `model_dump`
  on the `Telemetry` schema (declaration order, all 15 fields required).

Numeric values are rationals; probabilities computed by the model are `ℚ`.
-/

/-! ## Data model -/

abbrev FeatureName := String

/-- A feature value as carried in the request/dataframe: the `Telemetry`
schema holds 12 floats and 3 booleans. -/
inductive FeatureValue
  | num (q : ℚ)
  | boolean (b : Bool)
deriving DecidableEq

/-- A loaded predictor: `ver` is the registry version the artifact was
published under, `score` embeds `predict_proba(df)[0][1]`, taking the row in
the dataframe's column order; `none` models an exception raised inside the
model's scoring call. -/
structure Model where
  ver : Nat
  score : List FeatureValue → Option ℚ

/-- The global `model_state` dict of main.py line 36.  `version = none`
models the `"N/A"` sentinel; `feature_list = none` models Python `None`. -/
structure ModelState where
  model : Option Model
  version : Option Nat
  feature_list : Option (List FeatureName)

/-- Prometheus metrics touched by the embedded code paths. -/
structure Counters where
  predictions_total : Nat
  model_updates_total : Nat
  last_failure_risk : ℚ
deriving DecidableEq

/-- Process-start state: `{"model": None, "version": "N/A", "feature_list": None}`. -/
def initialModelState : ModelState :=
  { model := none, version := none, feature_list := none }

/-- Fresh metric registry (all counters zero, gauge zero). -/
def initialCounters : Counters :=
  { predictions_total := 0, model_updates_total := 0, last_failure_risk := 0 }

/-! ## Feature Schema Loader (main.py lines 69-102) -/

/-- Outcome of probing `feature_list.json`: the file exists and its text
parses to a list (`present`), the file does not exist (`missing`), or the
existence check / read / JSON parse raises (`failing`). -/
inductive SchemaArtifact
  | present (contents : List FeatureName)
  | missing
  | failing

/-- The hardcoded fallback list of main.py lines 83-99. -/
def fallbackFeatureList : List FeatureName :=
  ["air_temp_k", "proc_temp_k", "rpm", "torque_nm", "tool_wear_min",
   "TWF", "HDF", "PWF", "OSF", "RNF",
   "temp_diff_k", "power", "type_H", "type_L", "type_M"]

/-- `load_feature_list()`: returns the parsed file verbatim when it exists
and reads cleanly, the hardcoded fallback when the file is absent, and `[]`
when any exception is raised (the `except` branch of lines 100-102 logs the
error and returns the empty list).  Total: the Python function never
propagates an exception. -/
def load_feature_list : SchemaArtifact → List FeatureName
  | .present xs => xs
  | .missing => fallbackFeatureList
  | .failing => []

/-! ## Model State Manager: one refresh cycle (main.py lines 105-142) -/

/-- Outcome of `client.get_model_version_by_alias(MODEL_NAME, "production")`:
`err` covers both a raised registry/network error and the no-model-with-alias
case (MLflow raises in both; the inner `except` of lines 116-118 catches
either), `ok v` a successful reply carrying the approved version. -/
inductive RegistryReply
  | err
  | ok (v : Nat)

/-- Outcome of `mlflow.sklearn.load_model(model_uri)`: `fail` models a raised
fetch/deserialization error, `ok m` a successfully loaded artifact. -/
inductive FetchReply
  | fail
  | ok (m : Model)

/-- Write 1 of the update section: `model_state["model"] = loaded_model`
(main.py line 134). -/
def refreshWrite1 (m : Model) (s : ModelState) : ModelState :=
  { s with model := some m }

/-- Write 2 of the update section: `model_state["version"] = latest_version`
(main.py line 135). -/
def refreshWrite2 (v : Nat) (s : ModelState) : ModelState :=
  { s with version := some v }

/-- Write 3 of the update section:
`model_state["feature_list"] = load_feature_list()` (main.py line 136). -/
def refreshWrite3 (fl : List FeatureName) (s : ModelState) : ModelState :=
  { s with feature_list := some fl }

/-- The shared-state values readable between the three in-place writes of a
version-installing refresh: after the first, after the second, and after the
third (final) write.  The writes execute in source order 134, 135, 136; each
single dict-item assignment is atomic, the triple is not. -/
def refreshIntermediates (s : ModelState) (m : Model) (v : Nat)
    (fl : List FeatureName) : List ModelState :=
  [refreshWrite1 m s,
   refreshWrite2 v (refreshWrite1 m s),
   refreshWrite3 fl (refreshWrite2 v (refreshWrite1 m s))]

/-- One execution of `load_latest_model()` in sequential (non-interleaved)
form.  Returns the resulting state, the resulting counters, and the number
of artifact fetch attempts performed (0 or 1).  Mirrors main.py lines
105-142: registry error returns early; an up-to-date state with a loaded
model returns early; otherwise the artifact is fetched, a failure is caught
by the outer `except` leaving the state untouched, and success performs the
three state writes and increments `MODEL_UPDATES_TOTAL`. -/
def load_latest_model (reg : RegistryReply) (fetch : FetchReply)
    (schema : SchemaArtifact) (s : ModelState) (c : Counters) :
    ModelState × Counters × Nat :=
  match reg with
  | .err => (s, c, 0)
  | .ok v =>
    if s.version = some v ∧ s.model.isSome = true then
      (s, c, 0)
    else
      match fetch with
      | .fail => (s, c, 1)
      | .ok m =>
        (refreshWrite3 (load_feature_list schema) (refreshWrite2 v (refreshWrite1 m s)),
         { c with model_updates_total := c.model_updates_total + 1 }, 1)

/-- Total artifact fetch attempts across two consecutive refresh cycles that
observe the same registry reply and the same fetch behaviour (the registry
version unchanged between the calls). -/
def refreshTwiceFetchCount (reg : RegistryReply) (fetch : FetchReply)
    (schema : SchemaArtifact) (s : ModelState) (c : Counters) : Nat :=
  (load_latest_model reg fetch schema s c).2.2 +
    (load_latest_model reg fetch schema
      (load_latest_model reg fetch schema s c).1
      (load_latest_model reg fetch schema s c).2.1).2.2

/-- A published state is internally consistent when the version field is the
registry version of the model it holds (the reading a reader relies on when
it reports `version` next to a score produced by `model`). -/
def consistentState (s : ModelState) : Prop :=
  ∀ m, s.model = some m → s.version = some m.ver

/-! ## Inference Executor (main.py lines 192-251) -/

/-- The three error classes `/predict` raises: 503 "Model is loading or
unavailable", 400 "Invalid feature input", 500 "Model inference failed". -/
inductive PredictError
  | modelUnavailable
  | schemaMismatch
  | inferenceFailed
deriving DecidableEq

/-- The HTTP status code the handler attaches to each error
(`HTTPException(status_code=...)` at main.py lines 195, 209, 222). -/
def statusCode : PredictError → Nat
  | .modelUnavailable => 503
  | .schemaMismatch => 400
  | .inferenceFailed => 500

/-- The JSON body returned on success (main.py line 251). -/
structure PredictionResult where
  failure_risk : ℚ
  label : Nat
  version : Option Nat
deriving DecidableEq

/-- The audit record shipped to S3 per successful prediction (main.py lines
226-232; the wall-clock timestamp fields are outside the embedding). -/
structure LogRecord where
  input_features : List (FeatureName × FeatureValue)
  prediction_label : Nat
  prediction_probability : ℚ
  model_version : Option Nat
deriving DecidableEq

/-- Python truthiness of `model_state["feature_list"]` as tested at main.py
line 204: `None` and `[]` are falsy, a non-empty list is truthy. -/
def truthy : Option (List FeatureName) → Bool
  | none => false
  | some [] => false
  | some (_ :: _) => true

/-- `df[feature_list]`: select the record's columns in exactly the order of
`fl`, looking each name up in the record; any name absent from the record
raises a `KeyError` (modelled as `none`). -/
def dfSelect (record : List (FeatureName × FeatureValue)) :
    List FeatureName → Option (List (FeatureName × FeatureValue))
  | [] => some []
  | n :: ns =>
    match record.lookup n, dfSelect record ns with
    | some v, some rest => some ((n, v) :: rest)
    | _, _ => none

/-- The `/predict` handler body acting on `input_data = tel.model_dump()`
(main.py lines 192-251).  `sinkOk` abstracts whether the S3 `put_object`
call succeeds; a raised S3 error is caught and only logged (lines 247-249).
Returns the HTTP outcome, the resulting counters, and the audit record the
sink actually received (`none` when delivery failed or was never reached). -/
def predictRecord (s : ModelState) (c : Counters) (sinkOk : Bool)
    (record : List (FeatureName × FeatureValue)) :
    Except PredictError PredictionResult × Counters × Option LogRecord :=
  match s.model with
  | none => (.error .modelUnavailable, c, none)
  | some m =>
    match (if truthy s.feature_list then
             dfSelect record (s.feature_list.getD [])
           else some record) with
    | none => (.error .schemaMismatch, c, none)
    | some df =>
      match m.score (df.map Prod.snd) with
      | none => (.error .inferenceFailed, c, none)
      | some proba =>
        (.ok { failure_risk := proba,
               label := if (1 : ℚ)/2 ≤ proba then 1 else 0,
               version := s.version },
         { c with predictions_total := c.predictions_total + 1,
                  last_failure_risk := proba },
         if sinkOk then
           some { input_features := record,
                  prediction_label := if (1 : ℚ)/2 ≤ proba then 1 else 0,
                  prediction_probability := proba,
                  model_version := s.version }
         else none)

/-- The request schema (main.py lines 50-65): all 15 fields are required by
pydantic, 12 floats and 3 booleans, in this declaration order. -/
structure Telemetry where
  air_temp_k : ℚ
  proc_temp_k : ℚ
  rpm : ℚ
  torque_nm : ℚ
  tool_wear_min : ℚ
  TWF : ℚ
  HDF : ℚ
  PWF : ℚ
  OSF : ℚ
  RNF : ℚ
  temp_diff_k : ℚ
  power : ℚ
  type_H : Bool
  type_L : Bool
  type_M : Bool

/-- `tel.model_dump()`: the name → value mapping in field declaration order
(pydantic preserves declaration order regardless of the order of keys in the
request body). -/
def telemetryDump (t : Telemetry) : List (FeatureName × FeatureValue) :=
  [("air_temp_k", .num t.air_temp_k), ("proc_temp_k", .num t.proc_temp_k),
   ("rpm", .num t.rpm), ("torque_nm", .num t.torque_nm),
   ("tool_wear_min", .num t.tool_wear_min), ("TWF", .num t.TWF),
   ("HDF", .num t.HDF), ("PWF", .num t.PWF), ("OSF", .num t.OSF),
   ("RNF", .num t.RNF), ("temp_diff_k", .num t.temp_diff_k),
   ("power", .num t.power), ("type_H", .boolean t.type_H),
   ("type_L", .boolean t.type_L), ("type_M", .boolean t.type_M)]

/-- The row in Telemetry field declaration order, as `pd.DataFrame([input_data])`
lays it out before any reordering. -/
def telemetryValues (t : Telemetry) : List FeatureValue :=
  (telemetryDump t).map Prod.snd

/-- The full `/predict` endpoint: validation produced `tel`, the handler
works on its dump. -/
def predictTelemetry (s : ModelState) (c : Counters) (sinkOk : Bool)
    (t : Telemetry) :
    Except PredictError PredictionResult × Counters × Option LogRecord :=
  predictRecord s c sinkOk (telemetryDump t)

/-! ## Concrete fixtures used in witnesses and counterexamples -/

/-- A predictor that returns the constant probability `p` on every row. -/
def constModel (p : ℚ) : Model :=
  { ver := 1, score := fun _ => some p }

/-- An artifact registered as version 1. -/
def modelV1 : Model := { ver := 1, score := fun _ => some 0 }

/-- An artifact registered as version 2. -/
def modelV2 : Model := { ver := 2, score := fun _ => some 0 }

/-- An artifact registered as version 3. -/
def modelV3 : Model := { ver := 3, score := fun _ => some 0 }

/-- An artifact registered as version 5. -/
def modelV5 : Model := { ver := 5, score := fun _ => some 0 }

/-- A healthy state serving version 1. -/
def stateVer1 : ModelState :=
  { model := some modelV1, version := some 1, feature_list := some fallbackFeatureList }

/-- A healthy state serving version 5. -/
def stateVer5 : ModelState :=
  { model := some modelV5, version := some 5, feature_list := some fallbackFeatureList }

/-- A concrete request body. -/
def t0 : Telemetry :=
  { air_temp_k := 300, proc_temp_k := 310, rpm := 1500, torque_nm := 40,
    tool_wear_min := 10, TWF := 0, HDF := 0, PWF := 0, OSF := 0, RNF := 0,
    temp_diff_k := 10, power := 60000,
    type_H := false, type_L := true, type_M := false }

/-- A serving state whose model scores exactly 1/2. -/
def halfState : ModelState :=
  { model := some (constModel (1/2)), version := some 1,
    feature_list := some fallbackFeatureList }

/-- A serving state whose model scores 0.499999. -/
def lowState : ModelState :=
  { model := some (constModel (499999/1000000)), version := some 1,
    feature_list := some fallbackFeatureList }

/-- A serving state whose feature list names a column the Telemetry schema
does not carry. -/
def bogusState : ModelState :=
  { model := some (constModel (1/2)), version := some 1,
    feature_list := some ["bogus_column"] }

/-- A serving state after the schema loader failed and produced `[]`. -/
def emptyFlState : ModelState :=
  { model := some (constModel (1/2)), version := some 1, feature_list := some [] }

/-! ## Helper lemmas about `dfSelect` -/

/-- On success, `df[fl]` yields exactly the columns `fl`, in that order. -/
theorem dfSelect_keys (r : List (FeatureName × FeatureValue)) :
    ∀ fl df, dfSelect r fl = some df → df.map Prod.fst = fl := by
  intro fl
  induction fl with
  | nil =>
    intro df h
    simp only [dfSelect, Option.some.injEq] at h
    subst h
    rfl
  | cons n ns ih =>
    intro df h
    simp only [dfSelect] at h
    cases hv : r.lookup n with
    | none => rw [hv] at h; exact absurd h (by simp)
    | some v =>
      cases hrest : dfSelect r ns with
      | none => rw [hv, hrest] at h; exact absurd h (by simp)
      | some rest =>
        rw [hv, hrest] at h
        obtain rfl := Option.some.inj h
        simp [ih rest hrest]

/-- `df[fl]` raises a `KeyError` when a requested column is absent. -/
theorem dfSelect_missing (r : List (FeatureName × FeatureValue)) (n : FeatureName)
    (hn : r.lookup n = none) :
    ∀ fl, n ∈ fl → dfSelect r fl = none := by
  intro fl
  induction fl with
  | nil => intro h; cases h
  | cons m ms ih =>
    intro h
    simp only [dfSelect]
    rcases List.mem_cons.mp h with rfl | hmem
    · rw [hn]
    · rw [ih hmem]
      cases r.lookup m <;> rfl

/-- `df[fl]` depends only on the name → value mapping of the record, not on
the record's own column order. -/
theorem dfSelect_congr (r r' : List (FeatureName × FeatureValue))
    (h : ∀ n, r.lookup n = r'.lookup n) :
    ∀ fl, dfSelect r fl = dfSelect r' fl := by
  intro fl
  induction fl with
  | nil => rfl
  | cons n ns ih => simp only [dfSelect, h n, ih]

/-! ## Claim theorems -/

/-- Claim C2: every failure inside one refresh cycle — the registry query
fails or no approved version exists (`RegistryReply.err`), or the artifact
fetch/deserialization fails (`FetchReply.fail`) — leaves the (model,
version, feature_list) state and the update counter exactly as they were;
the cycle returns normally (the embedding is total) rather than raising. -/
theorem refresh_failure_leaves_state_unchanged (reg : RegistryReply)
    (fetch : FetchReply) (schema : SchemaArtifact) (s : ModelState)
    (c : Counters) (h : reg = RegistryReply.err ∨ fetch = FetchReply.fail) :
    (load_latest_model reg fetch schema s c).1 = s ∧
    (load_latest_model reg fetch schema s c).2.1 = c := by
  rcases h with h | h
  · subst h
    exact ⟨rfl, rfl⟩
  · subst h
    cases reg with
    | err => exact ⟨rfl, rfl⟩
    | ok v =>
      simp only [load_latest_model]
      split <;> exact ⟨rfl, rfl⟩

/-- Witness for C2 at a concrete failed registry query over the fresh
process state. -/
theorem refresh_failure_leaves_state_unchanged_witness :
    (load_latest_model RegistryReply.err FetchReply.fail
        SchemaArtifact.missing initialModelState initialCounters).1 =
      initialModelState ∧
    (load_latest_model RegistryReply.err FetchReply.fail
        SchemaArtifact.missing initialModelState initialCounters).2.1 =
      initialCounters :=
  refresh_failure_leaves_state_unchanged RegistryReply.err FetchReply.fail
    SchemaArtifact.missing initialModelState initialCounters (Or.inl rfl)

/-- Claim C3 counterexample: from the fresh state (no model loaded), with
the registry consistently reporting version 1 but the artifact fetch
failing, two consecutive refresh cycles perform two artifact fetch
attempts — more than one, contradicting the claim that two calls under an
unchanged registry version perform at most one artifact fetch. -/
theorem refresh_twice_two_fetches :
    refreshTwiceFetchCount (RegistryReply.ok 1) FetchReply.fail
      SchemaArtifact.missing initialModelState initialCounters = 2 := by
  decide

/-- Claim C3 (amended): if the registry returns a version equal to the
currently active one and a model is already loaded, the refresh performs no
artifact fetch, does not modify the state and does not touch the counters;
and two consecutive refresh cycles under an unchanged registry version
perform at most one artifact fetch provided the artifact fetch succeeds
(a failed fetch leaves the state unchanged, so the second call retries). -/
theorem refresh_noop_when_unchanged (v : Nat) (m : Model) (fetch : FetchReply)
    (schema : SchemaArtifact) (s : ModelState) (c : Counters) :
    (s.version = some v → s.model.isSome = true →
      load_latest_model (RegistryReply.ok v) fetch schema s c = (s, c, 0)) ∧
    refreshTwiceFetchCount (RegistryReply.ok v) (FetchReply.ok m) schema s c ≤ 1 := by
  constructor
  · intro h1 h2
    simp only [load_latest_model]
    rw [if_pos ⟨h1, h2⟩]
  · by_cases h : s.version = some v ∧ s.model.isSome = true
    · simp [refreshTwiceFetchCount, load_latest_model, if_pos h]
    · simp [refreshTwiceFetchCount, load_latest_model, if_neg h,
        refreshWrite1, refreshWrite2, refreshWrite3]

/-- Witness for C3 (amended) at the version-1 serving state with the
registry still reporting version 1. -/
theorem refresh_noop_when_unchanged_witness :
    load_latest_model (RegistryReply.ok 1) (FetchReply.ok modelV1)
      SchemaArtifact.missing stateVer1 initialCounters =
      (stateVer1, initialCounters, 0) :=
  (refresh_noop_when_unchanged 1 modelV1 (FetchReply.ok modelV1)
    SchemaArtifact.missing stateVer1 initialCounters).1 rfl rfl

/-- Claim C6 counterexample: when the read of the schema artifact raises,
`load_feature_list` returns the empty list, not the hardcoded 15-name
fallback the claim promises for read failures. -/
theorem schema_loader_failure_not_fallback :
    load_feature_list SchemaArtifact.failing ≠ fallbackFeatureList := by
  decide

/-- Claim C6 (amended): the schema loader never raises (it is total); when
the artifact is readable it returns its contents verbatim, preserving
order; when the artifact is absent it returns the fixed, hardcoded 15-name
fallback; but when the read raises it returns the empty list. -/
theorem schema_loader_behaviour :
    (∀ xs, load_feature_list (SchemaArtifact.present xs) = xs) ∧
    load_feature_list SchemaArtifact.missing = fallbackFeatureList ∧
    fallbackFeatureList.length = 15 ∧
    load_feature_list SchemaArtifact.failing = [] :=
  ⟨fun _ => rfl, rfl, rfl, rfl⟩

/-- Claim C7: a predict call made while no model is loaded returns the
`modelUnavailable` error, surfaced with HTTP status 503, leaves the
counters untouched, and delivers nothing to the audit sink. -/
theorem predict_no_model_unavailable (s : ModelState) (c : Counters)
    (sinkOk : Bool) (r : List (FeatureName × FeatureValue))
    (h : s.model = none) :
    predictRecord s c sinkOk r =
      (Except.error PredictError.modelUnavailable, c, none) ∧
    statusCode PredictError.modelUnavailable = 503 := by
  constructor
  · unfold predictRecord
    rw [h]
  · rfl

/-- Witness for C7 at the fresh process state before any model load. -/
theorem predict_no_model_unavailable_witness :
    predictRecord initialModelState initialCounters true [] =
      (Except.error PredictError.modelUnavailable, initialCounters, none) ∧
    statusCode PredictError.modelUnavailable = 503 :=
  predict_no_model_unavailable initialModelState initialCounters true [] rfl

/-- Claim C1 counterexample: a version-2 refresh over the version-1 serving
state updates the shared dict by three separate in-place writes; the state
readable right after the first write (line 134) — one of the intermediate
states of the write sequence — already holds the new model while still
reporting the old version, so the (model, version, feature_list) triple is
not replaced as a single new instance in one atomic step. -/
theorem refresh_intermediate_state_inconsistent :
    refreshWrite1 modelV2 stateVer1 ∈
      refreshIntermediates stateVer1 modelV2 2 fallbackFeatureList ∧
    ¬ consistentState (refreshWrite1 modelV2 stateVer1) := by
  constructor
  · simp [refreshIntermediates]
  · intro h
    have h2 := h modelV2 rfl
    simp [refreshWrite1, stateVer1, modelV2] at h2

/-- Claim C1 (amended): the refresh installs a new model by three
sequential in-place writes to the shared state (model, then version, then
feature_list) rather than swapping in a new instance; only once the cycle
has completed is the published triple consistent again: a completed
version-installing refresh produces exactly the three-write composition,
and — whenever the fetched artifact is the one registered under the
installed version and the prior state was consistent — that completed state
satisfies `consistentState`. -/
theorem refresh_consistent_after_completion (s : ModelState) (c : Counters)
    (v : Nat) (m : Model) (schema : SchemaArtifact)
    (hcons : consistentState s) (hver : m.ver = v) :
    consistentState
      (load_latest_model (RegistryReply.ok v) (FetchReply.ok m) schema s c).1 ∧
    ((load_latest_model (RegistryReply.ok v) (FetchReply.ok m) schema s c).1 = s ∨
     (load_latest_model (RegistryReply.ok v) (FetchReply.ok m) schema s c).1 =
       refreshWrite3 (load_feature_list schema)
         (refreshWrite2 v (refreshWrite1 m s))) := by
  by_cases h : s.version = some v ∧ s.model.isSome = true
  · simp only [load_latest_model, if_pos h]
    exact ⟨hcons, Or.inl trivial⟩
  · simp only [load_latest_model, if_neg h]
    refine ⟨?_, Or.inr trivial⟩
    intro m' hm'
    simp only [refreshWrite1, refreshWrite2, refreshWrite3,
      Option.some.injEq] at hm' ⊢
    rw [← hm', hver]

/-- Witness for C1 (amended): completing the version-2 refresh over the
version-1 serving state yields a consistent published triple. -/
theorem refresh_consistent_after_completion_witness :
    consistentState
      (load_latest_model (RegistryReply.ok 2) (FetchReply.ok modelV2)
        SchemaArtifact.missing stateVer1 initialCounters).1 :=
  (refresh_consistent_after_completion stateVer1 initialCounters 2 modelV2
    SchemaArtifact.missing
    (fun m hm => by obtain rfl := Option.some.inj hm; rfl) rfl).1

/-- Claim C5 counterexample: with version 5 published, a refresh cycle in
which the registry reports version 3 (a registry rollback) and the fetch
succeeds installs version 3 — the published version goes backwards, because
the code compares versions only for equality. -/
theorem refresh_version_can_go_backwards :
    stateVer5.version = some 5 ∧
    (load_latest_model (RegistryReply.ok 3) (FetchReply.ok modelV3)
        SchemaArtifact.missing stateVer5 initialCounters).1.version = some 3 ∧
    (3 : Nat) < 5 := by
  refine ⟨rfl, ?_, by decide⟩
  decide

/-- Claim C5 (amended): the published version never goes backwards across a
refresh cycle provided the registry never reports a version older than the
currently published one; the code detects change by equality alone and
installs whatever version the registry reports. -/
theorem refresh_version_monotone (reg : RegistryReply) (fetch : FetchReply)
    (schema : SchemaArtifact) (s : ModelState) (c : Counters) (w : Nat)
    (hw : s.version = some w)
    (hreg : ∀ v, reg = RegistryReply.ok v → w ≤ v) :
    ∃ w', (load_latest_model reg fetch schema s c).1.version = some w' ∧
      w ≤ w' := by
  cases reg with
  | err => exact ⟨w, hw, le_refl w⟩
  | ok v =>
    simp only [load_latest_model]
    by_cases h : s.version = some v ∧ s.model.isSome = true
    · rw [if_pos h]
      exact ⟨w, hw, le_refl w⟩
    · rw [if_neg h]
      cases fetch with
      | fail => exact ⟨w, hw, le_refl w⟩
      | ok m =>
        refine ⟨v, ?_, hreg v rfl⟩
        simp [refreshWrite1, refreshWrite2, refreshWrite3]

/-- Witness for C5 (amended): a refresh from version 1 to version 2 under a
registry that reports a version no older than the published one. -/
theorem refresh_version_monotone_witness :
    ∃ w', (load_latest_model (RegistryReply.ok 2) (FetchReply.ok modelV2)
        SchemaArtifact.missing stateVer1 initialCounters).1.version = some w' ∧
      1 ≤ w' :=
  refresh_version_monotone (RegistryReply.ok 2) (FetchReply.ok modelV2)
    SchemaArtifact.missing stateVer1 initialCounters 1 rfl
    (fun v h => by cases h; decide)

/-- Helper: when the column selection raises, the handler answers with the
schema-mismatch error, untouched counters, and no audit delivery. -/
theorem predictRecord_schemaMismatch (s : ModelState) (c : Counters)
    (sinkOk : Bool) (r : List (FeatureName × FeatureValue)) (m : Model)
    (hm : s.model = some m)
    (hdf : (if truthy s.feature_list then
              dfSelect r (s.feature_list.getD [])
            else some r) = none) :
    predictRecord s c sinkOk r =
      (Except.error PredictError.schemaMismatch, c, none) := by
  unfold predictRecord
  rw [hm, hdf]

/-- Helper: when the column selection yields the dataframe `df`, the rest of
the handler is determined by the model's score on `df`'s values. -/
theorem predictRecord_reorder (s : ModelState) (c : Counters) (sinkOk : Bool)
    (r : List (FeatureName × FeatureValue)) (m : Model)
    (df : List (FeatureName × FeatureValue))
    (hm : s.model = some m)
    (hdf : (if truthy s.feature_list then
              dfSelect r (s.feature_list.getD [])
            else some r) = some df) :
    predictRecord s c sinkOk r =
      (match m.score (df.map Prod.snd) with
       | none => (Except.error PredictError.inferenceFailed, c, none)
       | some proba =>
         (Except.ok { failure_risk := proba,
                      label := if (1 : ℚ)/2 ≤ proba then 1 else 0,
                      version := s.version },
          { c with predictions_total := c.predictions_total + 1,
                   last_failure_risk := proba },
          if sinkOk then
            some { input_features := r,
                   prediction_label := if (1 : ℚ)/2 ≤ proba then 1 else 0,
                   prediction_probability := proba,
                   model_version := s.version }
          else none)) := by
  unfold predictRecord
  rw [hm, hdf]

/-- Claim C9: audit-sink delivery is fire-and-forget — the HTTP outcome and
the counters produced by the handler are independent of whether the S3
write succeeds; a failed write only loses the audit record itself, the
already-computed probability, label and serving version are returned
unchanged and the request never fails because of the sink. -/
theorem predict_sink_fire_and_forget (s : ModelState) (c : Counters)
    (r : List (FeatureName × FeatureValue)) (okA okB : Bool) :
    (predictRecord s c okA r).1 = (predictRecord s c okB r).1 ∧
    (predictRecord s c okA r).2.1 = (predictRecord s c okB r).2.1 := by
  unfold predictRecord
  split
  · exact ⟨rfl, rfl⟩
  · split
    · exact ⟨rfl, rfl⟩
    · split
      · exact ⟨rfl, rfl⟩
      · exact ⟨rfl, rfl⟩

/-- Claim C4: on every successful prediction the label is 1 exactly when
the probability is ≥ 1/2 (the literal constant in the handler, not a
parameter of any definition); a model scoring exactly 1/2 yields label 1
and a model scoring 0.499999 yields label 0. -/
theorem predict_label_threshold :
    (∀ s c sinkOk r res, (predictRecord s c sinkOk r).1 = Except.ok res →
        (res.label = 1 ↔ (1 : ℚ)/2 ≤ res.failure_risk)) ∧
    (predictTelemetry halfState initialCounters true t0).1 =
      Except.ok { failure_risk := 1/2, label := 1, version := some 1 } ∧
    (predictTelemetry lowState initialCounters true t0).1 =
      Except.ok { failure_risk := 499999/1000000, label := 0,
                  version := some 1 } := by
  refine ⟨?_, ?_, ?_⟩
  case refine_2 =>
    show (predictRecord halfState initialCounters true (telemetryDump t0)).1 = _
    rw [predictRecord_reorder halfState initialCounters true (telemetryDump t0)
      (constModel (1/2)) (telemetryDump t0) rfl rfl]
    simp only [constModel]
    norm_num [halfState]
  case refine_3 =>
    show (predictRecord lowState initialCounters true (telemetryDump t0)).1 = _
    rw [predictRecord_reorder lowState initialCounters true (telemetryDump t0)
      (constModel (499999/1000000)) (telemetryDump t0) rfl rfl]
    simp only [constModel]
    norm_num [lowState]
  intro s c sinkOk r res h
  unfold predictRecord at h
  split at h
  · exact absurd h (by simp)
  · split at h
    · exact absurd h (by simp)
    · split at h
      · exact absurd h (by simp)
      · simp only [Except.ok.injEq] at h
        subst h
        split_ifs with hp <;> simp only [one_div] at hp <;> simp [hp]

/-- Witness for C4's threshold equivalence at the half-probability state. -/
theorem predict_label_threshold_witness :
    (({ failure_risk := 1/2, label := 1, version := some 1 } :
        PredictionResult).label = 1 ↔
      (1 : ℚ)/2 ≤ ({ failure_risk := 1/2, label := 1, version := some 1 } :
        PredictionResult).failure_risk) :=
  predict_label_threshold.1 halfState initialCounters true (telemetryDump t0)
    { failure_risk := 1/2, label := 1, version := some 1 }
    predict_label_threshold.2.1

/-- Claim C8: with a model loaded and a (non-empty) feature list published,
a request missing a required feature name fails with the schema-mismatch
(bad-request) error and touches nothing; on a request carrying all required
names the selected dataframe's columns are exactly `snapshot.featureOrder`;
and the outcome depends only on the record's name → value mapping — two
records that agree as mappings (one a reordering of the other) produce the
same HTTP result and the same counters. -/
theorem predict_schema_checks (s : ModelState) (c : Counters) (sinkOk : Bool)
    (m : Model) (fl : List FeatureName)
    (hm : s.model = some m) (hfl : s.feature_list = some fl) :
    (∀ t n, n ∈ fl → (telemetryDump t).lookup n = none →
        predictTelemetry s c sinkOk t =
          (Except.error PredictError.schemaMismatch, c, none)) ∧
    (∀ r df, dfSelect r fl = some df → df.map Prod.fst = fl) ∧
    (∀ r r' : List (FeatureName × FeatureValue), fl ≠ [] →
        (∀ n, r.lookup n = r'.lookup n) →
        (predictRecord s c sinkOk r).1 = (predictRecord s c sinkOk r').1 ∧
        (predictRecord s c sinkOk r).2.1 = (predictRecord s c sinkOk r').2.1) := by
  refine ⟨?_, fun r df h => dfSelect_keys r fl df h, ?_⟩
  · intro t n hn hlook
    have htr : truthy s.feature_list = true := by
      rw [hfl]
      cases fl with
      | nil => cases hn
      | cons a as => rfl
    have hdf : (if truthy s.feature_list then
        dfSelect (telemetryDump t) (s.feature_list.getD [])
        else some (telemetryDump t)) = none := by
      rw [if_pos htr, hfl]
      exact dfSelect_missing (telemetryDump t) n hlook fl hn
    exact predictRecord_schemaMismatch s c sinkOk (telemetryDump t) m hm hdf
  · intro r r' hne hagree
    have htr : truthy s.feature_list = true := by
      rw [hfl]
      cases fl with
      | nil => exact absurd rfl hne
      | cons a as => rfl
    have hsel : dfSelect r fl = dfSelect r' fl := dfSelect_congr r r' hagree fl
    cases hd : dfSelect r fl with
    | none =>
      have e1 := predictRecord_schemaMismatch s c sinkOk r m hm
        (by rw [if_pos htr, hfl]; exact hd)
      have e2 := predictRecord_schemaMismatch s c sinkOk r' m hm
        (by rw [if_pos htr, hfl]; show dfSelect r' fl = none; rw [← hsel]; exact hd)
      rw [e1, e2]
      exact ⟨rfl, rfl⟩
    | some df =>
      have e1 := predictRecord_reorder s c sinkOk r m df hm
        (by rw [if_pos htr, hfl]; exact hd)
      have e2 := predictRecord_reorder s c sinkOk r' m df hm
        (by rw [if_pos htr, hfl]; show dfSelect r' fl = some df; rw [← hsel]; exact hd)
      rw [e1, e2]
      cases m.score (df.map Prod.snd) with
      | none => exact ⟨rfl, rfl⟩
      | some proba => exact ⟨rfl, rfl⟩

/-- Witness for C8: a published feature list naming a column the Telemetry
schema does not carry makes the request fail with the schema-mismatch
error. -/
theorem predict_schema_checks_witness :
    predictTelemetry bogusState initialCounters true t0 =
      (Except.error PredictError.schemaMismatch, initialCounters, none) :=
  (predict_schema_checks bogusState initialCounters true (constModel (1/2))
    ["bogus_column"] rfl rfl).1 t0 "bogus_column" (by decide) (by decide)

/-- Claim C10: after the feature-list loader failed and published the empty
list, a predict call with a loaded model does not fail with a schema error:
the column-reordering step is skipped entirely (the empty list is falsy)
and the model scores the row in Telemetry field declaration order —
whatever the model returns on `telemetryValues t` is the probability served. -/
theorem predict_empty_feature_list_skips_reorder (s : ModelState)
    (c : Counters) (sinkOk : Bool) (t : Telemetry) (m : Model) (p : ℚ)
    (hm : s.model = some m) (hfl : s.feature_list = some [])
    (hscore : m.score (telemetryValues t) = some p) :
    (predictTelemetry s c sinkOk t).1 =
      Except.ok { failure_risk := p,
                  label := if (1 : ℚ)/2 ≤ p then 1 else 0,
                  version := s.version } := by
  have hdf : (if truthy s.feature_list then
      dfSelect (telemetryDump t) (s.feature_list.getD [])
      else some (telemetryDump t)) = some (telemetryDump t) := by
    rw [hfl]
    rfl
  have e := predictRecord_reorder s c sinkOk (telemetryDump t) m
    (telemetryDump t) hm hdf
  show (predictRecord s c sinkOk (telemetryDump t)).1 = _
  rw [e]
  have hscore' : m.score ((telemetryDump t).map Prod.snd) = some p := hscore
  rw [hscore']

/-- Witness for C10: the degraded state with the empty feature list serves
the constant-1/2 model's score on the declaration-order row. -/
theorem predict_empty_feature_list_witness :
    (predictTelemetry emptyFlState initialCounters true t0).1 =
      Except.ok { failure_risk := 1/2,
                  label := if (1 : ℚ)/2 ≤ 1/2 then 1 else 0,
                  version := some 1 } :=
  predict_empty_feature_list_skips_reorder emptyFlState initialCounters true
    t0 (constModel (1/2)) (1/2) rfl rfl rfl
